import Mathlib

/-!
Shallow embedding of the `conversation` repository's core
(`src/conversation/core/modules.py`, `manager.py`, `graph.py`,
`src/conversation/llm/mock.py`, `ollama.py`) and proofs about the
spec's claims over that embedding.

Python values that can appear as block payloads, extras values and
serialized output are modelled by the JSON-serializable value type
`Conv.Json`.  Python `dict`s are modelled as insertion-ordered
association lists with Python's assignment semantics (replace in
place when the key is present, append otherwise).  `datetime.now()`
and `uuid.uuid4()` are modelled by explicit call-indexed supplies
(`Conv.Sys`) threaded through a call counter (`Conv.World`), so each
textual call site of `datetime.now()` in the source corresponds to
one clock read in the model.
-/

namespace Conv

/-- JSON-serializable Python value (payloads, extras, dump output). -/
inductive Json where
  | str : String → Json
  | num : Int → Json
  | bool : Bool → Json
  | null : Json
  | arr : List Json → Json
  | obj : List (String × Json) → Json

/-- Python `dict` lookup `d.get(k)` / `k in d` on an insertion-ordered
map (a `dict` holds at most one entry per key). -/
def pyGet {α : Type} : List (String × α) → String → Option α
  | [], _ => none
  | kv :: rest, k => if kv.1 = k then some kv.2 else pyGet rest k

/-- Python `d[k] = v`: replace the entry in place when the key is
present, append a new entry otherwise. -/
def pySet {α : Type} : List (String × α) → String → α → List (String × α)
  | [], k, v => [(k, v)]
  | kv :: rest, k, v => if kv.1 = k then (k, v) :: rest else kv :: pySet rest k v

/-- Python `del d[k]`: remove the entry for `k` (a `dict` holds at
most one entry per key, so removing every match is the same). -/
def pyDel {α : Type} (d : List (String × α)) (k : String) : List (String × α) :=
  d.filter (fun kv => kv.1 ≠ k)

/-- Python `d.update(d2)`: assign each pair of `d2` into `d` in order. -/
def pyUpdate (d d2 : List (String × Json)) : List (String × Json) :=
  d2.foldl (fun acc kv => pySet acc kv.1 kv.2) d

/-- One content block (`modules.py`, `class ContentBlock`): a
`type` in text|image|json, a payload `content`, and open `extras`. -/
structure ContentBlock where
  type : String
  content : Json
  extras : List (String × Json)

/-- `ContentBlock.__init__` (modules.py:16-21): the call sites pass
`type` and `content` as their own keywords (so they are never in the
remaining keyword dict), `extras` is popped from the keywords with
default `{}`, and every other keyword is folded into `extras` via
`dict.update`.  A non-dict `extras` keyword would raise in Python and
is outside the accepted inputs. -/
def ContentBlock.make (ty : String) (content : Json) (kwargs : List (String × Json)) :
    ContentBlock :=
  let extras0 := match pyGet kwargs "extras" with
    | some (Json.obj e) => e
    | _ => []
  let rest := kwargs.filter (fun kv => kv.1 ≠ "extras")
  { type := ty, content := content, extras := pyUpdate extras0 rest }

/-- `ContentBlock.get_extra` (modules.py:23-25). -/
def ContentBlock.get_extra (b : ContentBlock) (key : String) : Option Json :=
  pyGet b.extras key

/-- `ContentBlock.set_extra` (modules.py:27-31). -/
def ContentBlock.set_extra (b : ContentBlock) (key : String) (v : Json) : ContentBlock :=
  { b with extras := pySet b.extras key v }

/-- `ContentBlock.has_extra` (modules.py:33-35). -/
def ContentBlock.has_extra (b : ContentBlock) (key : String) : Bool :=
  (pyGet b.extras key).isSome

/-- Ordered block sequence (`modules.py`, `class Content`). -/
structure Content where
  blocks : List ContentBlock

/-- `Content.add_text` (modules.py:92-95): append one text block. -/
def Content.add_text (c : Content) (text : String) (kwargs : List (String × Json)) : Content :=
  { blocks := c.blocks ++ [ContentBlock.make "text" (Json.str text) kwargs] }

/-- `Content.add_image` (modules.py:97-108): resolve the image path
(`resolve_image_path`, a filesystem/environment lookup kept abstract as
the parameter `resolve`), store it under `resolved_path` unless the
caller already supplied one, and append one image block. -/
def Content.add_image (resolve : String → String) (c : Content) (image_url : String)
    (kwargs : List (String × Json)) : Content :=
  let kwargs :=
    if (pyGet kwargs "resolved_path").isSome then kwargs
    else kwargs ++ [("resolved_path", Json.str (resolve image_url))]
  { blocks := c.blocks ++ [ContentBlock.make "image" (Json.str image_url) kwargs] }

/-- `Content.add_json` (modules.py:110-113): append one json block. -/
def Content.add_json (c : Content) (json_data : Json) (kwargs : List (String × Json)) : Content :=
  { blocks := c.blocks ++ [ContentBlock.make "json" json_data kwargs] }

/-- One mixed item accepted by `Content.__init__` (modules.py:42-90):
a bare string, a single-key `text`/`image`/`json` map, or one of those
paired with an extras dict (the tuple form).  Items that raise
`ValueError` in the constructor (wrong-size tuples, non-dict extras,
unknown dict keys, unsupported types) are not accepted inputs and are
not represented. -/
inductive RawItem where
  | text : String → RawItem
  | tmap : String → RawItem
  | imap : String → RawItem
  | jmap : Json → RawItem

/-- An accepted constructor item: a raw value with the extras dict
attached by the tuple form (`[]` when the item is not a tuple). -/
structure Item where
  raw : RawItem
  extras : List (String × Json)

/-- Dispatch of one accepted item to the corresponding add call
(modules.py:77-90). -/
def Content.addItem (resolve : String → String) (c : Content) (it : Item) : Content :=
  match it.raw with
  | RawItem.text s => c.add_text s it.extras
  | RawItem.tmap s => c.add_text s it.extras
  | RawItem.imap s => Content.add_image resolve c s it.extras
  | RawItem.jmap j => c.add_json j it.extras

/-- `Content.__init__` (modules.py:42-90) on accepted items: the
general loop folds `addItem` over the items in order.  The
single-bare-string fast path (modules.py:61-63) calls
`self.add_text(items[0])`, which is exactly the loop's action on that
one item (`add_text` with the empty keyword dict), so it needs no
separate branch in the model. -/
def Content.ofItems (resolve : String → String) (items : List Item) : Content :=
  items.foldl (Content.addItem resolve) { blocks := [] }

/-- Message content (`modules.py`, `Message.content : Union[str, Content]`). -/
inductive MsgContent where
  | text : String → MsgContent
  | structured : Content → MsgContent

/-- `class Message` (modules.py:143-148): generated id, role, content,
creation timestamp.  Times are abstract clock values (`Nat`). -/
structure Message where
  msg_id : String
  role : String
  content : MsgContent
  timestamp : Nat

/-- `class History` (modules.py:161-167). -/
structure History where
  conv_id : String
  created_at : Nat
  updated_at : Nat
  metadata : Option (List (String × Json))
  messages : List Message

/-- The ambient process: the value returned by the `n`-th call of
`datetime.now()` and by the `n`-th call of `uuid.uuid4()`. -/
structure Sys where
  clock : Nat → Nat
  uuid : Nat → String

/-- Call counters for the two ambient supplies. -/
structure World where
  nowCalls : Nat
  uuidCalls : Nat

/-- One `datetime.now()` call. -/
def World.now (sys : Sys) (w : World) : Nat × World :=
  (sys.clock w.nowCalls, { w with nowCalls := w.nowCalls + 1 })

/-- One `uuid.uuid4()` call (`id_utils.new_id`). -/
def World.newId (sys : Sys) (w : World) : String × World :=
  (sys.uuid w.uuidCalls, { w with uuidCalls := w.uuidCalls + 1 })

/-- `Message(role=…, content=…)`: pydantic runs the default factories of
the omitted fields in declaration order, `msg_id = new_id()` then
`timestamp = datetime.now()`. -/
def mkMessage (sys : Sys) (w : World) (role : String) (content : MsgContent) :
    Message × World :=
  let (i, w) := w.newId sys
  let (t, w) := w.now sys
  ({ msg_id := i, role := role, content := content, timestamp := t }, w)

/-- `History(conv_id=…)`: the default factories of `created_at` and
`updated_at` each call `datetime.now()` once, in declaration order;
`metadata` defaults to `None` and `messages` to `[]`. -/
def mkHistory (sys : Sys) (w : World) (cid : String) : History × World :=
  let (t1, w) := w.now sys
  let (t2, w) := w.now sys
  ({ conv_id := cid, created_at := t1, updated_at := t2,
     metadata := none, messages := [] }, w)

/-- Python `a or b` on an optional string: `None` and `""` are falsy. -/
def pyOrStr (a : Option String) (b : String) : String :=
  match a with
  | some s => if s = "" then b else s
  | none => b

/-- `class HistoryManager` (manager.py): the in-memory conversation map
and the resolved save directory. -/
structure HistoryManager where
  _map : List (String × History)
  save_dir : String

/-- `HistoryManager.__init__` + `_resolve_save_dir` (manager.py:26-37):
resolve the directory from the `save_dir` argument, else the
`HISTORY_SAVE_DIR` environment variable, else the default
`./log/conv_log/draft`; `mkdir(parents=True, exist_ok=True)` then
creates it on first use (a filesystem effect outside the model, which
records the resolved path). -/
def HistoryManager.init (env : String → Option String) (save_dir : Option String) :
    HistoryManager :=
  { _map := [],
    save_dir := pyOrStr save_dir ((env "HISTORY_SAVE_DIR").getD "./log/conv_log/draft") }

/-- Calling `HistoryManager(…)` with keyword arguments: Python binds
each keyword to a declared parameter (here only `save_dir`) and raises
`TypeError` on any unexpected keyword. -/
def HistoryManager.initKwargs (env : String → Option String)
    (kwargs : List (String × Option String)) : Except String HistoryManager :=
  match kwargs.find? (fun kv => !(["save_dir"].contains kv.1)) with
  | some kv =>
      Except.error ("TypeError: HistoryManager.__init__ got an unexpected keyword argument "
        ++ kv.1)
  | none => Except.ok (HistoryManager.init env ((pyGet kwargs "save_dir").getD none))

/-- `HistoryManager.exists` (manager.py:39-40). -/
def HistoryManager.exists (m : HistoryManager) (conv_id : String) : Bool :=
  (pyGet m._map conv_id).isSome

/-- `HistoryManager.get_msgs` (manager.py:42-45): the message list, or
`[]` when the conversation is unknown. -/
def HistoryManager.get_msgs (m : HistoryManager) (conv_id : String) : List Message :=
  match pyGet m._map conv_id with
  | some h => h.messages
  | none => []

/-- `HistoryManager.get_length` (manager.py:47-51): message count, or
the sentinel `-1` when the conversation is unknown. -/
def HistoryManager.get_length (m : HistoryManager) (conv_id : String) : Int :=
  if m.exists conv_id then (m.get_msgs conv_id).length else -1

/-- `HistoryManager.save_msg` (manager.py:59-68): lazily create the
History (`History(conv_id=conv_id)` reads the clock twice for the field
defaults, then `created_at` is overwritten with a third read), append
the message, and bump `updated_at` with a further clock read. -/
def HistoryManager.save_msg (sys : Sys) (m : HistoryManager) (w : World)
    (conv_id : String) (msg : Message) : HistoryManager × World :=
  match pyGet m._map conv_id with
  | none =>
      let (h, w) := mkHistory sys w conv_id
      let (tc, w) := w.now sys
      let (tu, w) := w.now sys
      let h := { h with created_at := tc, messages := h.messages ++ [msg], updated_at := tu }
      ({ m with _map := pySet m._map conv_id h }, w)
  | some h =>
      let (tu, w) := w.now sys
      let h := { h with messages := h.messages ++ [msg], updated_at := tu }
      ({ m with _map := pySet m._map conv_id h }, w)

/-- `HistoryManager.cleanup_memory` (manager.py:84-88): drop the
in-memory History, a no-op when absent. -/
def HistoryManager.cleanup_memory (m : HistoryManager) (conv_id : String) : HistoryManager :=
  if (pyGet m._map conv_id).isSome then { m with _map := pyDel m._map conv_id } else m

/-- Pydantic serialization of a `datetime`: an ISO-8601 string.  The
model clock is abstract, so the textual rendering is abstracted to an
injective rendering of the clock value. -/
def dumpDatetime (t : Nat) : Json := Json.str (toString t)

/-- Whether a payload is Python `None`. -/
def Json.isNull : Json → Bool
  | Json.null => true
  | _ => false

/-- Pydantic dump of a `ContentBlock` under `exclude_none=True`, which
recurses into nested models: a field whose value is `None` is dropped
at every model level, so a block with a `None` payload (reachable via
`Content(\x7b"json": None\x7d)`) is exported without its `content`
key.  `extras` is declared `Optional[Dict]` with default `{}` and the
constructor always produces a dict, never `None`, so it is always
emitted — `{}` when empty; `None` values nested inside a payload or
extras dict are dict entries, not model fields, and are kept. -/
def ContentBlock.dump (b : ContentBlock) : Json :=
  Json.obj ([("type", Json.str b.type)]
    ++ (if b.content.isNull then [] else [("content", b.content)])
    ++ [("extras", Json.obj b.extras)])

/-- Pydantic dump of a `Content`: its single field `blocks`. -/
def Content.dump (c : Content) : Json :=
  Json.obj [("blocks", Json.arr (c.blocks.map ContentBlock.dump))]

/-- Pydantic dump of `Message.content`: a plain string, or the dump of
the `Content` model. -/
def MsgContent.dump : MsgContent → Json
  | MsgContent.text s => Json.str s
  | MsgContent.structured c => c.dump

/-- Pydantic dump of a `Message`: its fields in declaration order. -/
def Message.dump (msg : Message) : Json :=
  Json.obj [("msg_id", Json.str msg.msg_id), ("role", Json.str msg.role),
    ("content", msg.content.dump), ("timestamp", dumpDatetime msg.timestamp)]

/-- `History.model_dump_json(indent=2, exclude_none=True)`
(manager.py:56, 78), as the JSON value the written text renders:
fields in declaration order, with the `None`-valued optional
`metadata` omitted by `exclude_none=True`. -/
def History.model_dump (h : History) : Json :=
  Json.obj ([("conv_id", Json.str h.conv_id), ("created_at", dumpDatetime h.created_at),
    ("updated_at", dumpDatetime h.updated_at)]
    ++ (match h.metadata with
        | none => []
        | some md => [("metadata", Json.obj md)])
    ++ [("messages", Json.arr (h.messages.map Message.dump))])

/-- `HistoryManager.save_conversation_to_file` (manager.py:71-82):
raise `ValueError` when the id is unknown, otherwise write the dump of
the History to `save_dir/<conv_id>.json` and return that path.  The
model returns the path together with the written JSON value and the
(unchanged) manager. -/
def HistoryManager.save_conversation_to_file (m : HistoryManager) (conv_id : String) :
    Except String (String × Json × HistoryManager) :=
  match pyGet m._map conv_id with
  | none => Except.error ("No conversation found with ID: " ++ conv_id)
  | some h => Except.ok (m.save_dir ++ "/" ++ conv_id ++ ".json", h.model_dump, m)

/-- Python `str()` of a JSON-serializable value, as interpolated by
the f-strings of the mock provider (`mock.py:54-56`).  String-escaping
details of the `repr` used for nested containers are abstracted. -/
def pyStr : Json → String
  | Json.str s => s
  | Json.num n => toString n
  | Json.bool true => "True"
  | Json.bool false => "False"
  | Json.null => "None"
  | Json.arr xs => "[" ++ String.intercalate ", " (xs.map pyStrRepr) ++ "]"
  | Json.obj kvs =>
      "\x7b" ++ String.intercalate ", " (kvs.map fun kv => kv.1 ++ ": " ++ pyStrRepr kv.2)
        ++ "\x7d"
where
  pyStrRepr : Json → String
    | Json.str s => s
    | Json.num n => toString n
    | Json.bool true => "True"
    | Json.bool false => "False"
    | Json.null => "None"
    | Json.arr _ => "[...]"
    | Json.obj _ => "\x7b...\x7d"

/-- The fragment the mock provider renders for one block
(`mock.py:50-59`): index, kind label, and payload summary; blocks of
an unknown type render nothing. -/
def mockBlockLine (i : Nat) (blk : ContentBlock) : Option String :=
  let d := "第" ++ toString (i + 1) ++ "项"
  if blk.type = "text" then some (d ++ ": 文本内容 - " ++ pyStr blk.content)
  else if blk.type = "image" then some (d ++ ": 图片文件 - " ++ pyStr blk.content)
  else if blk.type = "json" then
    let key_count := match blk.content with
      | Json.obj kvs => kvs.length
      | _ => 0
    some (d ++ ": 包含 " ++ toString key_count ++ " 个字段的JSON数据")
  else none

/-- The enumeration loop of `MockLLM.generate_response` (mock.py:50-59),
appending each rendered fragment to the accumulated response list. -/
def mockLoop (i : Nat) (blocks : List ContentBlock) (acc : List String) : List String :=
  match blocks with
  | [] => acc
  | blk :: rest => mockLoop (i + 1) rest (acc ++ (mockBlockLine i blk).toList)

/-- The user-role messages of a history (`mock.py:62`). -/
def userMessages (messages : List Message) : List Message :=
  messages.filter (fun msg => msg.role = "user")

/-- `MockLLM.generate_response` (mock.py:42-66): after a fixed
artificial delay (no effect on the value), enumerate the new Content's
blocks in order, append the interaction line when at least one prior
user-role message exists, and join everything with single spaces. -/
def MockLLM.generate_response (messages : List Message) (current_input : Content) : String :=
  let responses := mockLoop 0 current_input.blocks ["我按指定顺序分析了您的内容："]
  let n := (userMessages messages).length
  let responses :=
    if n > 0 then responses ++ ["这是我们对话中的第 #" ++ toString (n + 1) ++ " 次交互。"]
    else responses
  String.intercalate " " responses

/-- Decimal digit accumulation for `pyInt`. -/
def pyDigitsAux : List Char → Nat → Option Nat
  | [], acc => some acc
  | c :: cs, acc => if c.isDigit then pyDigitsAux cs (acc * 10 + (c.toNat - 48)) else none

/-- Python `int()` on a string: optional sign followed by decimal
digits (whitespace trimming and underscores are out of scope for the
values that occur here); anything else raises `ValueError` (`none`). -/
def pyInt (s : String) : Option Int :=
  match s.data with
  | [] => none
  | '-' :: cs => if cs = [] then none else (pyDigitsAux cs 0).map (fun n => -(n : Int))
  | '+' :: cs => if cs = [] then none else (pyDigitsAux cs 0).map (fun n => (n : Int))
  | cs => (pyDigitsAux cs 0).map (fun n => (n : Int))

/-- The resolved tunables of `OllamaLLM` (`llm/ollama.py`).  The model
and base URL keep their `Option` so that the `None` produced by the
constructor is observable; a failed `int()` parse of the timeout
environment value raises. -/
structure OllamaLLM where
  model : Option String
  base_url : Option String
  timeout : Option Int

/-- `OllamaLLM.__init__` (llm/ollama.py:13-26), exactly as written:
each tunable is `arg if arg is None else <env lookup with default>`,
so a `None` argument stays `None` and a supplied argument is replaced
by the environment value or its documented default
(`qwen2.5vl:3b`, `http://localhost:11434`, `30`). -/
def OllamaLLM.init (env : String → Option String) (model base_url : Option String)
    (timeout : Option Int) : Except String OllamaLLM :=
  let modelV := match model with
    | none => none
    | some _ => some ((env "OLLAMA_MODEL").getD "qwen2.5vl:3b")
  let baseV := match base_url with
    | none => none
    | some _ => some ((env "OLLAMA_BASE_URL").getD "http://localhost:11434")
  match timeout with
  | none => Except.ok { model := modelV, base_url := baseV, timeout := none }
  | some _ =>
      match pyInt ((env "OLLAMA_TIMEOUT").getD "30") with
      | some n => Except.ok { model := modelV, base_url := baseV, timeout := some n }
      | none => Except.error "ValueError: invalid literal for int()"

/-- Python truthiness of an `Optional[str]`: `None` and `""` are falsy. -/
def strTruthy : Option String → Bool
  | none => false
  | some s => s ≠ ""

/-- The dict returned by `ConversationGraph.chat` (graph.py:132-136),
without the optional `history` entry. -/
structure ChatResult where
  conv_id : String
  response : Option String
  message_count : Int

/-- A provider's `generate_response` as the orchestrator sees it: from
the prior messages and the new content, a reply text or a raised
error. -/
def LLMFun : Type := List Message → Content → Except String String

/-- `ConversationGraph._prepare_messages` (graph.py:47-59): when the
conversation has no stored messages and a truthy system prompt was
supplied, build a `system` Message from it and save it. -/
def prepareMessages (sys : Sys) (hm : HistoryManager) (w : World)
    (conv_id : String) (system_prompt : Option String) : HistoryManager × World :=
  if (hm.get_msgs conv_id).isEmpty && strTruthy system_prompt then
    let (msg, w) := mkMessage sys w "system" (MsgContent.text ((system_prompt).getD ""))
    HistoryManager.save_msg sys hm w conv_id msg
  else (hm, w)

/-- `ConversationGraph._save_history` (graph.py:77-95): append the
`user` Message wrapping the new content when one was supplied, then the
`assistant` Message wrapping the reply when the reply is truthy. -/
def saveHistory (sys : Sys) (hm : HistoryManager) (w : World) (conv_id : String)
    (content : Option Content) (response : Option String) : HistoryManager × World :=
  let (hm, w) :=
    match content with
    | some c =>
        let (msg, w) := mkMessage sys w "user" (MsgContent.structured c)
        HistoryManager.save_msg sys hm w conv_id msg
    | none => (hm, w)
  if strTruthy response then
    let (msg, w) := mkMessage sys w "assistant" (MsgContent.text (response.getD ""))
    HistoryManager.save_msg sys hm w conv_id msg
  else (hm, w)

/-- Resolution of the conversation id at the start of `chat`
(graph.py:117): `conv_id or ConversationState().conv_id` — a `None` or
empty argument draws one fresh id (`new_id` is the default factory of
`ConversationState.conv_id`). -/
def resolveConvId (sys : Sys) (w : World) (conv_id : Option String) : String × World :=
  match conv_id with
  | some s => if s = "" then w.newId sys else (s, w)
  | none => w.newId sys

/-- `ConversationGraph.chat` (graph.py:98-140): resolve the
conversation id, then run prepare → generate → persist.  The semaphore
serializes whole calls and is invisible to a single call.  A raise
inside Generate propagates (`log_exception` logs and re-raises),
skipping the persist stage; the manager state reached so far is kept,
since the store is a field of the graph.  On success the result
carries the id, the reply, and the post-persist `get_length`. -/
def chat (llm : LLMFun) (sys : Sys) (hm : HistoryManager) (w : World)
    (conv_id : Option String) (system_prompt : Option String) (content : Option Content) :
    Except String ChatResult × HistoryManager × World :=
  let r := resolveConvId sys w conv_id
  let cid := r.1
  let p := prepareMessages sys hm r.2 cid system_prompt
  match content with
  | none =>
      let s := saveHistory sys p.1 p.2 cid none none
      (Except.ok { conv_id := cid, response := none, message_count := s.1.get_length cid },
        s.1, s.2)
  | some c =>
      match llm (p.1.get_msgs cid) c with
      | Except.error e => (Except.error e, p.1, p.2)
      | Except.ok rep =>
          let s := saveHistory sys p.1 p.2 cid (some c) (some rep)
          let res : ChatResult :=
            { conv_id := cid, response := some rep, message_count := s.1.get_length cid }
          (Except.ok res, s.1, s.2)

/-- `ConversationGraph.__init__` (graph.py:31-40): after the provider
is built (line 37; the default mock provider never raises), line 38
calls `HistoryManager(history_save_dir=history_save_dir)` — a keyword
call bound against `HistoryManager.__init__(self, save_dir=None)`. -/
def ConversationGraph.init (env : String → Option String) (history_save_dir : Option String) :
    Except String HistoryManager :=
  HistoryManager.initKwargs env [("history_save_dir", history_save_dir)]

/-- Substring occurrence on character lists: `hasPre pat cs` is "`pat`
is an initial segment of `cs`". -/
def hasPre : List Char → List Char → Bool
  | [], _ => true
  | _ :: _, [] => false
  | p :: ps, c :: cs => p = c && hasPre ps cs

/-- `hasSub pat cs`: `pat` occurs contiguously somewhere in `cs`. -/
def hasSub (pat : List Char) : List Char → Bool
  | [] => pat.isEmpty
  | c :: cs => hasPre pat (c :: cs) || hasSub pat cs

/-- `pat` occurs as a contiguous substring of `s`. -/
def strContains (s pat : String) : Bool := hasSub pat.data s.data

/-- An environment with no variables set. -/
def envN : String → Option String := fun _ => none

/-- A concrete ambient supply: the clock advances by one per call (a
legitimate behavior of `datetime.now()`, whose microsecond reading can
change between any two calls), ids are the call index. -/
def sysId : Sys := { clock := fun n => n, uuid := fun n => toString n }

/-- A freshly constructed manager (no explicit save dir, no env). -/
def mgrN : HistoryManager := HistoryManager.init envN none

/-- A concrete message. -/
def msgW : Message :=
  { msg_id := "m0", role := "user", content := MsgContent.text "hi", timestamp := 0 }

/-- A concrete stand-in for the filesystem-dependent
`resolve_image_path`. -/
def resolveId : String → String := fun s => s

/-- The single block that one accepted constructor item produces
(spec side: "exactly one block per item"). -/
def itemBlock (resolve : String → String) (it : Item) : ContentBlock :=
  match it.raw with
  | RawItem.text s => ContentBlock.make "text" (Json.str s) it.extras
  | RawItem.tmap s => ContentBlock.make "text" (Json.str s) it.extras
  | RawItem.imap s =>
      ContentBlock.make "image" (Json.str s)
        (if (pyGet it.extras "resolved_path").isSome then it.extras
         else it.extras ++ [("resolved_path", Json.str (resolve s))])
  | RawItem.jmap j => ContentBlock.make "json" j it.extras

/-- Claim C5 as stated (spec side): on an unknown id the History
created by `save_message` has `created_at` equal to `updated_at` after
that first call. -/
def savedHistoryEqualTimes : Prop :=
  ∀ (sys : Sys) (m : HistoryManager) (w : World) (cid : String) (msg : Message),
    m.exists cid = false →
    ∀ h, pyGet ((HistoryManager.save_msg sys m w cid msg).1)._map cid = some h →
      h.created_at = h.updated_at

/-- The history that the first `save_msg` under `sysId` produces: the
third clock read (2) lands in `created_at`, the fourth (3) in
`updated_at`. -/
def histW5 : History :=
  { conv_id := "c", created_at := 2, updated_at := 3, metadata := none, messages := [msgW] }

/-- The field names of a JSON object (`[]` for non-objects). -/
def jsonKeys : Json → List String
  | Json.obj kvs => kvs.map Prod.fst
  | _ => []

/-- Field lookup in a JSON object. -/
def jGet (j : Json) (k : String) : Option Json :=
  match j with
  | Json.obj kvs => pyGet kvs k
  | _ => none

/-- Whether a JSON object has a field of the given name. -/
def hasKey (j : Json) (k : String) : Bool := (jGet j k).isSome

/-- Claim C7 as stated (spec side): the export file is an object with
a `conversation_id` field, message objects carry an `id` field,
structured content is tagged `"type": "structured"`, and `extras` is
omitted entirely when a block's extras is empty. -/
def specExportLayout : Prop :=
  (∀ hist : History, hasKey hist.model_dump "conversation_id" = true) ∧
  (∀ msg : Message, hasKey msg.dump "id" = true) ∧
  (∀ c : Content, jGet c.dump "type" = some (Json.str "structured")) ∧
  (∀ b : ContentBlock, b.extras = [] → hasKey b.dump "extras" = false)

/-- A block with empty extras, a structured message carrying it, and a
History holding that message. -/
def blockW7 : ContentBlock := { type := "text", content := Json.str "x", extras := [] }

/-- The block that `Content(\x7b"json": None\x7d)` produces: a json
block with a `None` payload and empty extras. -/
def blockNull7 : ContentBlock := ContentBlock.make "json" Json.null []

def contentW7 : Content := { blocks := [blockW7] }

def msgW7 : Message :=
  { msg_id := "m1", role := "user", content := MsgContent.structured contentW7, timestamp := 1 }

def histW7 : History :=
  { conv_id := "c", created_at := 0, updated_at := 1, metadata := none, messages := [msgW7] }

/-- The tunables that `OllamaLLM.__init__` actually produces when all
three arguments are supplied and no environment variable is set: the
documented env-lookup defaults, with the arguments discarded. -/
def ollamaAllDefaults : OllamaLLM :=
  { model := some "qwen2.5vl:3b", base_url := some "http://localhost:11434",
    timeout := some 30 }

/-- The tunables `OllamaLLM.__init__` produces when no argument is
supplied: every tunable is `None`. -/
def ollamaAllNone : OllamaLLM :=
  { model := none, base_url := none, timeout := none }

/-- The fragments the mock provider renders for a block list starting
at index `i` (claim side: one fragment per block, in input order). -/
def mockFragsFrom : Nat → List ContentBlock → List String
  | _, [] => []
  | i, b :: rest => (mockBlockLine i b).toList ++ mockFragsFrom (i + 1) rest

/-- The interaction-counter line derived from the count of prior
user-role messages. -/
def counterLine (ms : List Message) : String :=
  "这是我们对话中的第 #" ++ toString ((userMessages ms).length + 1) ++ " 次交互。"

/-- Claim C9 as stated (spec side): the reply always ends with the
interaction counter, for every prior-message list. -/
def specMockReply : Prop :=
  ∀ (ms : List Message) (c : Content),
    MockLLM.generate_response ms c =
      String.intercalate " "
        ("我按指定顺序分析了您的内容：" :: mockFragsFrom 0 c.blocks ++ [counterLine ms])

/-- The claim's example content `Content("a", \x7b"json": \x7b"k": 1\x7d\x7d)`. -/
def contentC9 : Content :=
  Content.ofItems resolveId
    [Item.mk (RawItem.text "a") [], Item.mk (RawItem.jmap (Json.obj [("k", Json.num 1)])) []]

/-- The mock provider as the orchestrator's `llm`: always succeeds
with the deterministic reply. -/
def mockLLM : LLMFun := fun ms c => Except.ok (MockLLM.generate_response ms c)

/-- A provider whose `complete` always raises (a failing Generate
stage, e.g. a transport error). -/
def llmFail : LLMFun := fun _ _ => Except.error "generate failed"

/-- The zero call-counter state. -/
def w0 : World := { nowCalls := 0, uuidCalls := 0 }

/-- Claim C1 as stated (spec side): when every `complete` call raises,
`chat` with new content yields no result and leaves the stored
conversation map exactly as it was — no message of any role appended
during the call remains. -/
def specGenerateFailureKeepsHistory : Prop :=
  ∀ (llm : LLMFun) (sys : Sys) (hm : HistoryManager) (w : World)
    (cid0 sp : Option String) (c : Content),
    (∀ ms cc, ∃ e, llm ms cc = Except.error e) →
    (∀ res, (chat llm sys hm w cid0 sp (some c)).1 ≠ Except.ok res) ∧
    ((chat llm sys hm w cid0 sp (some c)).2.1)._map = hm._map

/-- The manager states reachable from a freshly constructed store via
`save_msg`, `save_conversation_to_file` (which returns the manager it
was given) and `cleanup_memory`. -/
inductive Reachable : HistoryManager → Prop where
  | init (env : String → Option String) (save_dir : Option String) :
      Reachable (HistoryManager.init env save_dir)
  | save (m : HistoryManager) (sys : Sys) (w : World) (cid : String) (msg : Message) :
      Reachable m → Reachable (HistoryManager.save_msg sys m w cid msg).1
  | exportFile (m : HistoryManager) (cid : String) :
      Reachable m →
      Reachable (match m.save_conversation_to_file cid with
        | Except.ok out => out.2.2
        | Except.error _ => m)
  | evict (m : HistoryManager) (cid : String) :
      Reachable m → Reachable (m.cleanup_memory cid)

/-! ## Theorems -/

/-! ### Basic lemmas about the dict and store primitives -/

theorem pyGet_pySet {α : Type} (d : List (String × α)) (k k' : String) (v : α) :
    pyGet (pySet d k v) k' = if k' = k then some v else pyGet d k' := by
  induction d with
  | nil =>
      by_cases h : k' = k
      · subst h; simp [pySet, pyGet]
      · have h2 : ¬ k = k' := fun hh => h hh.symm
        simp [pySet, pyGet, h, h2]
  | cons kv rest ih =>
      by_cases hk : kv.1 = k
      · by_cases h : k' = k
        · subst h
          simp [pySet, pyGet, hk]
        · have h2 : ¬ k = k' := fun hh => h hh.symm
          have h3 : ¬ kv.1 = k' := fun hh => h (by rw [← hh, hk])
          simp [pySet, pyGet, hk, h, h2, h3]
      · by_cases h : kv.1 = k'
        · have h2 : ¬ k' = k := fun hh => hk (h.trans hh)
          simp [pySet, pyGet, hk, h, h2]
        · simp [pySet, pyGet, hk, h, ih]

theorem pyGet_pyDel {α : Type} (d : List (String × α)) (k k' : String) :
    pyGet (pyDel d k) k' = if k' = k then none else pyGet d k' := by
  induction d with
  | nil => simp [pyDel, pyGet]
  | cons kv rest ih =>
      by_cases hk : kv.1 = k
      · by_cases h : k' = k
        · subst h
          simpa [pyDel, pyGet, hk] using ih
        · have hne : ¬ kv.1 = k' := fun hh => h (by rw [← hh, hk])
          have h4 : ¬ k = k' := fun hh => h hh.symm
          simp only [pyDel, List.filter] at ih ⊢
          simp [hk, hne, h4, pyGet, h] at ih ⊢
          simpa [h] using ih
      · by_cases h : kv.1 = k'
        · have h2 : ¬ k' = k := fun hh => hk (h.trans hh)
          simp only [pyDel, List.filter] at ih ⊢
          simp [hk, h, pyGet, h2]
        · simp only [pyDel, List.filter] at ih ⊢
          simp [hk, h, pyGet] at ih ⊢
          exact ih

theorem exists_true_iff (m : HistoryManager) (cid : String) :
    m.exists cid = true ↔ ∃ h, pyGet m._map cid = some h := by
  cases h : pyGet m._map cid <;> simp [HistoryManager.exists, h]

theorem get_msgs_eq (m : HistoryManager) (cid : String) :
    m.get_msgs cid = match pyGet m._map cid with
      | some h => h.messages
      | none => [] := rfl

/-- Effect of `save_msg` on the stored message lists: the target
conversation gets the message appended (an unknown id starts from the
empty list), every other conversation is untouched. -/
theorem get_msgs_save_msg (sys : Sys) (m : HistoryManager) (w : World) (cid : String)
    (msg : Message) (id : String) :
    ((HistoryManager.save_msg sys m w cid msg).1).get_msgs id =
      if id = cid then m.get_msgs id ++ [msg] else m.get_msgs id := by
  cases hpy : pyGet m._map cid with
  | none =>
      by_cases hid : id = cid <;>
        simp [HistoryManager.save_msg, hpy, HistoryManager.get_msgs, pyGet_pySet,
          mkHistory, World.now, hid]
  | some h =>
      by_cases hid : id = cid <;>
        simp [HistoryManager.save_msg, hpy, HistoryManager.get_msgs, pyGet_pySet,
          World.now, hid]

/-- Effect of `save_msg` on `exists`: the target id becomes present,
other ids are untouched. -/
theorem exists_save_msg (sys : Sys) (m : HistoryManager) (w : World) (cid : String)
    (msg : Message) (id : String) :
    ((HistoryManager.save_msg sys m w cid msg).1).exists id =
      if id = cid then true else m.exists id := by
  cases hpy : pyGet m._map cid with
  | none =>
      by_cases hid : id = cid <;>
        simp [HistoryManager.save_msg, hpy, HistoryManager.exists, pyGet_pySet,
          mkHistory, World.now, hid]
  | some h =>
      by_cases hid : id = cid <;>
        simp [HistoryManager.save_msg, hpy, HistoryManager.exists, pyGet_pySet,
          World.now, hid]

theorem save_dir_save_msg (sys : Sys) (m : HistoryManager) (w : World) (cid : String)
    (msg : Message) :
    ((HistoryManager.save_msg sys m w cid msg).1).save_dir = m.save_dir := by
  cases hpy : pyGet m._map cid <;>
    simp [HistoryManager.save_msg, hpy, mkHistory, World.now]

/-- Effect of `save_msg` on `get_length`: one more than the previous
length, where an unknown id (sentinel `-1`) counts as zero. -/
theorem get_length_save_msg (sys : Sys) (m : HistoryManager) (w : World) (cid : String)
    (msg : Message) :
    ((HistoryManager.save_msg sys m w cid msg).1).get_length cid =
      max (m.get_length cid) 0 + 1 := by
  have hex := exists_save_msg sys m w cid msg cid
  have hmsgs := get_msgs_save_msg sys m w cid msg cid
  simp at hex hmsgs
  cases hpy : pyGet m._map cid with
  | none =>
      have hex0 : m.exists cid = false := by simp [HistoryManager.exists, hpy]
      have hmsg0 : m.get_msgs cid = [] := by simp [HistoryManager.get_msgs, hpy]
      simp [HistoryManager.get_length, hex, hmsgs, hex0, hmsg0]
  | some h =>
      have hext : m.exists cid = true := by simp [HistoryManager.exists, hpy]
      have hmsg1 : m.get_msgs cid = h.messages := by simp [HistoryManager.get_msgs, hpy]
      simp [HistoryManager.get_length, hex, hmsgs, hext, hmsg1]

/-! ### Concrete fixtures used by witnesses and counterexamples -/

/-! ### C4 — block order equals item order -/

theorem addItem_blocks (resolve : String → String) (c : Content) (it : Item) :
    (Content.addItem resolve c it).blocks = c.blocks ++ [itemBlock resolve it] := by
  cases it with
  | mk raw extras =>
      cases raw <;>
        simp [Content.addItem, Content.add_text, Content.add_image, Content.add_json,
          itemBlock]

theorem foldl_addItem_blocks (resolve : String → String) (items : List Item) :
    ∀ c : Content,
      (items.foldl (Content.addItem resolve) c).blocks
        = c.blocks ++ items.map (itemBlock resolve) := by
  induction items with
  | nil => intro c; simp
  | cons it rest ih =>
      intro c
      simp [List.foldl, ih, addItem_blocks]

/-- C4: every accepted mixed-item constructor input yields exactly one
block per item, in the input order, and the add operations only append
at the end — no reordering at construction or later. -/
theorem content_block_order_eq_item_order (resolve : String → String) (items : List Item) :
    (Content.ofItems resolve items).blocks = items.map (itemBlock resolve)
    ∧ (∀ (c : Content) (s : String) (kw : List (String × Json)),
        (c.add_text s kw).blocks = c.blocks ++ [ContentBlock.make "text" (Json.str s) kw])
    ∧ (∀ (c : Content) (s : String) (kw : List (String × Json)),
        (Content.add_image resolve c s kw).blocks
          = c.blocks ++ [itemBlock resolve (Item.mk (RawItem.imap s) kw)])
    ∧ (∀ (c : Content) (j : Json) (kw : List (String × Json)),
        (c.add_json j kw).blocks = c.blocks ++ [ContentBlock.make "json" j kw]) := by
  refine ⟨?_, ?_, ?_, ?_⟩
  · simpa [Content.ofItems] using foldl_addItem_blocks resolve items (Content.mk [])
  · intro c s kw; simp [Content.add_text]
  · intro c s kw; simp [Content.add_image, itemBlock]
  · intro c j kw; simp [Content.add_json]

/-! ### C5 — first save_msg timestamps and length increments -/

/-- C5, counterexample: `created_at` and `updated_at` come from two
separate `datetime.now()` reads (manager.py:64 and :67), so a clock
that advances between the reads makes them differ on the very first
`save_msg`. -/
theorem save_msg_equal_times_counterexample : ¬ savedHistoryEqualTimes := by
  intro hcl
  have h2 := hcl sysId mgrN { nowCalls := 0, uuidCalls := 0 } "c" msgW rfl histW5 rfl
  simp [histW5] at h2

/-- C5 (amended): on an unknown id, the first `save_msg` creates the
History with `created_at` read from the clock strictly before
`updated_at` (the third and fourth reads of the call), so
`created_at ≤ updated_at` for a monotone clock, with equality exactly
when the clock does not advance between the two reads; and every
`save_msg` makes `get_length` exactly `max(previous, 0) + 1`. -/
theorem save_msg_first_call_times_and_length (sys : Sys) (m : HistoryManager) (w : World)
    (cid : String) (msg : Message) (hmono : Monotone sys.clock) :
    (m.exists cid = false →
      ∀ h, pyGet ((HistoryManager.save_msg sys m w cid msg).1)._map cid = some h →
        h.created_at = sys.clock (w.nowCalls + 2) ∧
        h.updated_at = sys.clock (w.nowCalls + 3) ∧
        h.created_at ≤ h.updated_at) ∧
    ((HistoryManager.save_msg sys m w cid msg).1).get_length cid =
      max (m.get_length cid) 0 + 1 := by
  constructor
  · intro hex h hget
    have hpy : pyGet m._map cid = none := by
      cases hp : pyGet m._map cid with
      | none => rfl
      | some _ => simp [HistoryManager.exists, hp] at hex
    simp [HistoryManager.save_msg, hpy, mkHistory, World.now, pyGet_pySet] at hget
    subst hget
    refine ⟨rfl, rfl, hmono (by omega)⟩
  · exact get_length_save_msg sys m w cid msg

/-- C5 witness: the amended statement evaluated on a concrete first
save into an empty store. -/
theorem save_msg_first_call_times_and_length_witness :
    ((2 : Nat) = sysId.clock (0 + 2) ∧ (3 : Nat) = sysId.clock (0 + 3) ∧ (2 : Nat) ≤ 3) ∧
    ((HistoryManager.save_msg sysId mgrN { nowCalls := 0, uuidCalls := 0 } "c" msgW).1).get_length "c"
      = max (mgrN.get_length "c") 0 + 1 := by
  have h := save_msg_first_call_times_and_length sysId mgrN
      { nowCalls := 0, uuidCalls := 0 } "c" msgW monotone_id
  exact ⟨h.1 rfl histW5 rfl, h.2⟩

/-! ### C6 — export: not-found on unknown id, location and unchanged store on known id -/

/-- C6: `export` fails exactly on an unknown id, with the explicitly
raised not-found error naming the id (never a sentinel return); on a
known id it returns the per-conversation file location and leaves the
manager — including the in-memory History — unchanged and present. -/
theorem export_notfound_iff_unknown (m : HistoryManager) (cid : String) :
    (m.exists cid = false →
      m.save_conversation_to_file cid
        = Except.error ("No conversation found with ID: " ++ cid)) ∧
    (m.exists cid = true →
      ∃ h, pyGet m._map cid = some h ∧
        m.save_conversation_to_file cid
          = Except.ok (m.save_dir ++ "/" ++ cid ++ ".json", h.model_dump, m)) := by
  constructor
  · intro hex
    have hpy : pyGet m._map cid = none := by
      cases hp : pyGet m._map cid with
      | none => rfl
      | some _ => simp [HistoryManager.exists, hp] at hex
    simp [HistoryManager.save_conversation_to_file, hpy]
  · intro hex
    obtain ⟨h, hpy⟩ := (exists_true_iff m cid).mp hex
    exact ⟨h, hpy, by simp [HistoryManager.save_conversation_to_file, hpy]⟩

/-- C6 witness: the theorem applied to an empty store (not-found) and
to a store holding one conversation (success, store unchanged). -/
theorem export_notfound_iff_unknown_witness :
    (mgrN.save_conversation_to_file "c"
      = Except.error ("No conversation found with ID: " ++ "c")) ∧
    (∃ h, pyGet ((HistoryManager.save_msg sysId mgrN { nowCalls := 0, uuidCalls := 0 } "c" msgW).1)._map "c" = some h ∧
      ((HistoryManager.save_msg sysId mgrN { nowCalls := 0, uuidCalls := 0 } "c" msgW).1).save_conversation_to_file "c"
        = Except.ok (((HistoryManager.save_msg sysId mgrN { nowCalls := 0, uuidCalls := 0 } "c" msgW).1).save_dir ++ "/" ++ "c" ++ ".json", h.model_dump,
            (HistoryManager.save_msg sysId mgrN { nowCalls := 0, uuidCalls := 0 } "c" msgW).1)) := by
  refine ⟨(export_notfound_iff_unknown mgrN "c").1 rfl, ?_⟩
  exact (export_notfound_iff_unknown
    (HistoryManager.save_msg sysId mgrN { nowCalls := 0, uuidCalls := 0 } "c" msgW).1 "c").2 rfl

/-! ### C7 — layout of the exported file -/

/-- C7, counterexample: the pydantic dump uses the declared field name
`conv_id` — there is no `conversation_id` field in the written file
(and likewise no `id`, no `"type": "structured"` wrapper, and `extras`
is emitted as `{}` when empty). -/
theorem export_layout_counterexample : ¬ specExportLayout := by
  intro hcl
  exact absurd (hcl.1 histW7) (by decide)

/-- C7 (amended): the export file is a JSON object with fields
`conv_id`, `created_at`/`updated_at`, optional `metadata` (omitted
when unset, by `exclude_none`), and `messages`: an array of
`msg_id`/`role`/`content`/`timestamp` objects; structured content
serializes as an object with the single field `blocks` (no
`"type": "structured"` tag), each block as `type`/`content`/`extras`,
where `content` is omitted when the payload is `None`
(`exclude_none` recurses into nested models) and `extras` is always
present, as `{}` when empty. -/
theorem export_file_field_layout (hist : History) (msg : Message) (c : Content)
    (b : ContentBlock) :
    jsonKeys hist.model_dump
      = ["conv_id", "created_at", "updated_at"]
        ++ (match hist.metadata with | none => [] | some _ => ["metadata"]) ++ ["messages"]
    ∧ jGet hist.model_dump "messages" = some (Json.arr (hist.messages.map Message.dump))
    ∧ (hist.metadata = none → hasKey hist.model_dump "metadata" = false)
    ∧ jsonKeys msg.dump = ["msg_id", "role", "content", "timestamp"]
    ∧ jsonKeys c.dump = ["blocks"]
    ∧ jsonKeys b.dump
      = ["type"] ++ (if b.content.isNull then [] else ["content"]) ++ ["extras"]
    ∧ (b.content.isNull = true → hasKey b.dump "content" = false)
    ∧ (b.extras = [] → jGet b.dump "extras" = some (Json.obj [])) := by
  refine ⟨?_, ?_, ?_, ?_, ?_, ?_, ?_, ?_⟩
  · cases hmd : hist.metadata <;> simp [History.model_dump, jsonKeys, hmd]
  · cases hmd : hist.metadata <;> simp [History.model_dump, jGet, pyGet, hmd]
  · intro hmd; simp [History.model_dump, hmd, hasKey, jGet, pyGet]
  · simp [Message.dump, jsonKeys]
  · simp [Content.dump, jsonKeys]
  · by_cases hn : b.content.isNull = true <;> simp [ContentBlock.dump, jsonKeys, hn]
  · intro hn; simp [ContentBlock.dump, hn, hasKey, jGet, pyGet]
  · intro hex
    by_cases hn : b.content.isNull = true <;> simp [ContentBlock.dump, hex, hn, jGet, pyGet]

/-- C7 witness: the amended layout evaluated on a concrete exported
History with one structured message whose block has empty extras, and
on the `None`-payload block that `Content(\x7b"json": None\x7d)`
produces. -/
theorem export_file_field_layout_witness :
    jsonKeys histW7.model_dump = ["conv_id", "created_at", "updated_at", "messages"]
    ∧ hasKey histW7.model_dump "metadata" = false
    ∧ jGet blockW7.dump "extras" = some (Json.obj [])
    ∧ hasKey blockNull7.dump "content" = false := by
  have h := export_file_field_layout histW7 msgW7 contentW7 blockW7
  have h2 := export_file_field_layout histW7 msgW7 contentW7 blockNull7
  refine ⟨?_, h.2.2.1 rfl, h.2.2.2.2.2.2.2 rfl, h2.2.2.2.2.2.2.1 rfl⟩
  have h1 := h.1
  simpa [histW7] using h1

/-! ### C8 — Ollama tunable resolution -/

/-- C8: the constructor conditions of `OllamaLLM.__init__` are
inverted — a supplied argument is discarded in favor of the
environment/default fallback, and an absent argument yields `None`
instead of the fallback.  Evaluated with no environment variables set:
explicit arguments produce the documented defaults, absent arguments
produce `None`. -/
theorem ollama_init_inverted_resolution :
    OllamaLLM.init envN (some "llama3") (some "http://h:1") (some 5)
      = Except.ok ollamaAllDefaults
    ∧ OllamaLLM.init envN none none none = Except.ok ollamaAllNone := by
  constructor <;> rfl

/-! ### C2 — orchestrator construction and save-dir resolution -/

/-- C2: `ConversationGraph.__init__` passes the keyword
`history_save_dir` to `HistoryManager.__init__`, whose only parameter
is `save_dir`, so construction raises `TypeError` for every value of
the argument; with the correct keyword the manager resolves the
directory from the explicit argument, else the `HISTORY_SAVE_DIR`
environment value, else the default created on first use. -/
theorem graph_init_raises_typeerror (env : String → Option String)
    (hsd : Option String) :
    ConversationGraph.init env hsd
      = Except.error
          "TypeError: HistoryManager.__init__ got an unexpected keyword argument history_save_dir"
    ∧ HistoryManager.initKwargs env [("save_dir", hsd)]
      = Except.ok (HistoryManager.init env hsd)
    ∧ (HistoryManager.init env none).save_dir
      = (env "HISTORY_SAVE_DIR").getD "./log/conv_log/draft"
    ∧ (∀ s : String, s ≠ "" → (HistoryManager.init env (some s)).save_dir = s) := by
  refine ⟨rfl, rfl, rfl, ?_⟩
  intro s hs
  simp [HistoryManager.init, pyOrStr, hs]

/-- C2 witness: the statement evaluated with no environment and an
explicit directory. -/
theorem graph_init_raises_typeerror_witness :
    ConversationGraph.init envN (some "./d")
      = Except.error
          "TypeError: HistoryManager.__init__ got an unexpected keyword argument history_save_dir"
    ∧ (HistoryManager.init envN (some "./d")).save_dir = "./d" := by
  have h := graph_init_raises_typeerror envN (some "./d")
  exact ⟨h.1, h.2.2.2 "./d" (by decide)⟩

/-! ### C9 — mock reply enumeration and interaction counter -/

/-- C9, counterexample: with no prior user-role message the code
appends no interaction counter at all (mock.py:63 guards the append
with `len(user_messages) > 0`), so the reply is not of the claimed
shape. -/
theorem mock_counter_counterexample : ¬ specMockReply := by
  intro hcl
  exact absurd (hcl [] contentC9) (by decide)

theorem mockLoop_eq_frags (blocks : List ContentBlock) :
    ∀ (i : Nat) (acc : List String),
      mockLoop i blocks acc = acc ++ mockFragsFrom i blocks := by
  induction blocks with
  | nil => intro i acc; simp [mockLoop, mockFragsFrom]
  | cons b rest ih =>
      intro i acc
      simp [mockLoop, mockFragsFrom, ih]

theorem mockFragsFrom_length (blocks : List ContentBlock)
    (hwt : blocks.all (fun b => b.type = "text" || b.type = "image" || b.type = "json") = true) :
    ∀ i : Nat, (mockFragsFrom i blocks).length = blocks.length := by
  induction blocks with
  | nil => intro i; simp [mockFragsFrom]
  | cons b rest ih =>
      intro i
      simp only [List.all_cons, Bool.and_eq_true] at hwt
      obtain ⟨hb, hrest⟩ := hwt
      have hline : (mockBlockLine i b).toList.length = 1 := by
        simp only [Bool.or_eq_true, decide_eq_true_eq] at hb
        rcases hb with (h | h) | h <;> simp [mockBlockLine, h]
      simp [mockFragsFrom, hline, ih hrest]
      omega

/-- C9 (amended): the mock reply enumerates the new Content's blocks
in order — one fragment per text/image/json block, carrying index,
kind label and payload summary — and appends the interaction counter
exactly when at least one prior user-role message exists (nothing is
appended on a first interaction); the claim's concrete example renders
`"a"` and the one-field json summary. -/
theorem mock_reply_enumeration (ms : List Message) (c : Content)
    (hwt : c.blocks.all (fun b => b.type = "text" || b.type = "image" || b.type = "json") = true) :
    MockLLM.generate_response ms c =
      String.intercalate " "
        ("我按指定顺序分析了您的内容：" :: mockFragsFrom 0 c.blocks
          ++ (if 0 < (userMessages ms).length then [counterLine ms] else []))
    ∧ (mockFragsFrom 0 c.blocks).length = c.blocks.length
    ∧ strContains (MockLLM.generate_response [] contentC9) "a" = true
    ∧ strContains (MockLLM.generate_response [] contentC9) "包含 1 个字段的JSON数据" = true := by
  refine ⟨?_, mockFragsFrom_length c.blocks hwt 0, by decide, by decide⟩
  unfold MockLLM.generate_response
  rw [mockLoop_eq_frags]
  by_cases hn : 0 < (userMessages ms).length
  · simp [hn, counterLine]
  · simp [hn, counterLine]

/-! ### Pipeline support lemmas -/

theorem intercalate_go_split (s : String) (xs : List String) :
    ∀ acc : String, ∃ t, String.intercalate.go acc s xs = acc ++ t := by
  induction xs with
  | nil => intro acc; exact ⟨"", by simp [String.intercalate.go]⟩
  | cons x xs ih =>
      intro acc
      obtain ⟨t, ht⟩ := ih (acc ++ s ++ x)
      refine ⟨s ++ x ++ t, ?_⟩
      have hstep : String.intercalate.go acc s (x :: xs) =
          String.intercalate.go (acc ++ s ++ x) s xs := by
        simp [String.intercalate.go]
      rw [hstep, ht]
      simp [String.append_assoc]

theorem intercalate_cons_ne_empty (a : String) (as : List String) (ha : a ≠ "") :
    String.intercalate " " (a :: as) ≠ "" := by
  obtain ⟨t, ht⟩ := intercalate_go_split " " as a
  show String.intercalate.go a " " as ≠ ""
  rw [ht]
  intro h
  apply ha
  have hd := congrArg String.data h
  simp at hd
  exact String.ext hd.1

/-- The mock reply always starts with the fixed header, so it is never
the empty (falsy) string and the assistant message is always saved. -/
theorem mock_response_ne_empty (ms : List Message) (c : Content) :
    MockLLM.generate_response ms c ≠ "" := by
  unfold MockLLM.generate_response
  rw [mockLoop_eq_frags]
  by_cases hn : 0 < (userMessages ms).length
  · simp only [hn, if_pos, List.cons_append, List.nil_append]
    exact intercalate_cons_ne_empty _ _ (by decide)
  · simp only [hn, if_neg, List.nil_append]
    exact intercalate_cons_ne_empty _ _ (by decide)

theorem get_length_of_not_exists (m : HistoryManager) (cid : String)
    (h : m.exists cid = false) : m.get_length cid = -1 := by
  simp [HistoryManager.get_length, h]

theorem get_length_nonneg_of_exists (m : HistoryManager) (cid : String)
    (h : m.exists cid = true) : 0 ≤ m.get_length cid := by
  simp [HistoryManager.get_length, h]

theorem exists_of_get_length_nonneg (m : HistoryManager) (cid : String)
    (h : 0 ≤ m.get_length cid) : m.exists cid = true := by
  by_cases hex : m.exists cid = true
  · exact hex
  · rw [get_length_of_not_exists m cid (by simpa using hex)] at h
    omega

theorem get_length_save_msg_of_exists (sys : Sys) (m : HistoryManager) (w : World)
    (cid : String) (msg : Message) (h : m.exists cid = true) :
    ((HistoryManager.save_msg sys m w cid msg).1).get_length cid
      = m.get_length cid + 1 := by
  rw [get_length_save_msg, max_eq_left (get_length_nonneg_of_exists m cid h)]

theorem get_length_save_msg_of_fresh (sys : Sys) (m : HistoryManager) (w : World)
    (cid : String) (msg : Message) (h : m.exists cid = false) :
    ((HistoryManager.save_msg sys m w cid msg).1).get_length cid = 1 := by
  rw [get_length_save_msg, get_length_of_not_exists m cid h]
  rfl

/-- Prepare stage when the conversation has no stored messages and the
system prompt is truthy: exactly the `save_msg` of the system message
built by `Message(role="system", content=state.system_prompt)`. -/
theorem prepareMessages_pos (sys : Sys) (hm : HistoryManager) (w : World)
    (cid : String) (sp : Option String)
    (h : ((hm.get_msgs cid).isEmpty && strTruthy sp) = true) :
    prepareMessages sys hm w cid sp
      = HistoryManager.save_msg sys hm
          { nowCalls := w.nowCalls + 1, uuidCalls := w.uuidCalls + 1 } cid
          { msg_id := sys.uuid w.uuidCalls, role := "system",
            content := MsgContent.text (sp.getD ""), timestamp := sys.clock w.nowCalls } := by
  simp [prepareMessages, h, mkMessage, World.newId, World.now]

/-- Prepare stage otherwise: a no-op. -/
theorem prepareMessages_neg (sys : Sys) (hm : HistoryManager) (w : World)
    (cid : String) (sp : Option String)
    (h : ((hm.get_msgs cid).isEmpty && strTruthy sp) = false) :
    prepareMessages sys hm w cid sp = (hm, w) := by
  simp [prepareMessages, h]

theorem prepareMessages_neg_fst (sys : Sys) (hm : HistoryManager) (w : World)
    (cid : String) (sp : Option String)
    (h : ((hm.get_msgs cid).isEmpty && strTruthy sp) = false) :
    (prepareMessages sys hm w cid sp).1 = hm := by
  rw [prepareMessages_neg sys hm w cid sp h]

theorem prepareMessages_neg_snd (sys : Sys) (hm : HistoryManager) (w : World)
    (cid : String) (sp : Option String)
    (h : ((hm.get_msgs cid).isEmpty && strTruthy sp) = false) :
    (prepareMessages sys hm w cid sp).2 = w := by
  rw [prepareMessages_neg sys hm w cid sp h]

/-- Persist stage with new content and a non-empty reply: two more
messages for the conversation. -/
theorem get_length_saveHistory_of_exists (sys : Sys) (hm : HistoryManager) (w : World)
    (cid : String) (c : Content) (rep : String) (hr : rep ≠ "")
    (hex : hm.exists cid = true) :
    ((saveHistory sys hm w cid (some c) (some rep)).1).get_length cid
      = hm.get_length cid + 2 := by
  unfold saveHistory
  simp only [strTruthy, hr, ne_eq, not_false_eq_true, decide_true_eq_true, if_true]
  rw [get_length_save_msg_of_exists, get_length_save_msg_of_exists sys hm _ cid _ hex]
  · omega
  · rw [exists_save_msg]
    simp

theorem exists_saveHistory (sys : Sys) (hm : HistoryManager) (w : World)
    (cid : String) (c : Content) (rep : String) (hr : rep ≠ "") :
    ((saveHistory sys hm w cid (some c) (some rep)).1).exists cid = true := by
  unfold saveHistory
  simp only [strTruthy, hr, ne_eq, not_false_eq_true, decide_true_eq_true, if_true]
  rw [exists_save_msg]
  simp

/-- `chat` when the Generate stage raises: the error propagates and
the state is the one the Prepare stage left. -/
theorem chat_eq_of_resolve_error (llm : LLMFun) (sys : Sys) (hm : HistoryManager)
    (w : World) (cid0 sp : Option String) (c : Content) (e cid : String) (w1 : World)
    (hres : resolveConvId sys w cid0 = (cid, w1))
    (he : llm ((prepareMessages sys hm w1 cid sp).1.get_msgs cid) c = Except.error e) :
    chat llm sys hm w cid0 sp (some c)
      = (Except.error e, (prepareMessages sys hm w1 cid sp).1,
          (prepareMessages sys hm w1 cid sp).2) := by
  simp only [chat, hres]
  rw [he]

/-- `chat` when the Generate stage succeeds: the persisted state and
the result built from the post-persist length. -/
theorem chat_eq_of_resolve_ok (llm : LLMFun) (sys : Sys) (hm : HistoryManager)
    (w : World) (cid0 sp : Option String) (c : Content) (rep cid : String) (w1 : World)
    (hres : resolveConvId sys w cid0 = (cid, w1))
    (he : llm ((prepareMessages sys hm w1 cid sp).1.get_msgs cid) c = Except.ok rep) :
    chat llm sys hm w cid0 sp (some c)
      = (Except.ok (ChatResult.mk cid (some rep)
            (((saveHistory sys (prepareMessages sys hm w1 cid sp).1
              (prepareMessages sys hm w1 cid sp).2 cid (some c) (some rep)).1).get_length cid)),
          (saveHistory sys (prepareMessages sys hm w1 cid sp).1
            (prepareMessages sys hm w1 cid sp).2 cid (some c) (some rep)).1,
          (saveHistory sys (prepareMessages sys hm w1 cid sp).1
            (prepareMessages sys hm w1 cid sp).2 cid (some c) (some rep)).2) := by
  simp only [chat, hres]
  rw [he]

/-! ### C10 — reachable store states hold only non-empty histories -/

theorem pyGet_save_msg_ne (sys : Sys) (m : HistoryManager) (w : World) (cid : String)
    (msg : Message) (id : String) (hne : id ≠ cid) :
    pyGet ((HistoryManager.save_msg sys m w cid msg).1)._map id = pyGet m._map id := by
  cases hpy : pyGet m._map cid <;>
    simp [HistoryManager.save_msg, hpy, pyGet_pySet, hne, mkHistory, World.now]

theorem reachable_histories_nonempty {m : HistoryManager} (hr : Reachable m) :
    ∀ cid h, pyGet m._map cid = some h → h.messages ≠ [] := by
  induction hr with
  | init env sd =>
      intro cid h hget
      simp [HistoryManager.init, pyGet] at hget
  | save m0 sys w cid msg hrm ih =>
      intro id h hget
      have hcur : ((HistoryManager.save_msg sys m0 w cid msg).1).get_msgs id
          = h.messages := by
        simp [HistoryManager.get_msgs, hget]
      by_cases hid : id = cid
      · have hmm : h.messages = m0.get_msgs id ++ [msg] := by
          rw [← hcur, get_msgs_save_msg, if_pos hid]
        rw [hmm]
        simp
      · have hpg : pyGet m0._map id = some h := by
          rw [← pyGet_save_msg_ne sys m0 w cid msg id hid]
          exact hget
        exact ih id h hpg
  | exportFile m0 cid hrm ih =>
      intro id h hget
      have hstate : (match m0.save_conversation_to_file cid with
          | Except.ok out => out.2.2
          | Except.error _ => m0) = m0 := by
        cases hpy : pyGet m0._map cid <;>
          simp [HistoryManager.save_conversation_to_file, hpy]
      rw [hstate] at hget
      exact ih id h hget
  | evict m0 cid hrm ih =>
      intro id h hget
      by_cases hpres : (pyGet m0._map cid).isSome
      · simp only [HistoryManager.cleanup_memory, hpres, if_true] at hget
        rw [pyGet_pyDel] at hget
        by_cases hid : id = cid
        · simp [hid] at hget
        · rw [if_neg hid] at hget
          exact ih id h hget
      · simp only [HistoryManager.cleanup_memory, hpres, if_false, Bool.false_eq_true] at hget
        exact ih id h hget

/-- C10: in every store state reachable from a fresh store via
`save_msg`, export and evict, every History present holds at least one
message; hence `get_length` is `-1` exactly on absent ids, at least 1
on present ids, and never 0. -/
theorem store_reachable_invariant (m : HistoryManager) (hr : Reachable m) (cid : String) :
    (∀ h, pyGet m._map cid = some h → h.messages ≠ [])
    ∧ (m.exists cid = true → 1 ≤ m.get_length cid)
    ∧ (m.exists cid = false → m.get_length cid = -1)
    ∧ m.get_length cid ≠ 0 := by
  have hinv := reachable_histories_nonempty hr
  have h1 : m.exists cid = true → 1 ≤ m.get_length cid := by
    intro hex
    obtain ⟨h, hpy⟩ := (exists_true_iff m cid).mp hex
    have hne := hinv cid h hpy
    have hmsgs : m.get_msgs cid = h.messages := by simp [HistoryManager.get_msgs, hpy]
    have hlen : 0 < h.messages.length := List.length_pos.mpr hne
    simp [HistoryManager.get_length, hex, hmsgs]
    omega
  refine ⟨hinv cid, h1, fun hex => get_length_of_not_exists m cid hex, ?_⟩
  by_cases hex : m.exists cid = true
  · have := h1 hex
    omega
  · have hex2 : m.exists cid = false := by simpa using hex
    rw [get_length_of_not_exists m cid hex2]
    omega

/-- C10 witness: the invariant evaluated on the store reached by one
`save_msg` from a fresh store. -/
theorem store_reachable_invariant_witness :
    1 ≤ ((HistoryManager.save_msg sysId mgrN w0 "c" msgW).1).get_length "c"
    ∧ ((HistoryManager.save_msg sysId mgrN w0 "c" msgW).1).get_length "c" ≠ 0 := by
  have h := store_reachable_invariant _
      (Reachable.save mgrN sysId w0 "c" msgW (Reachable.init envN none)) "c"
  exact ⟨h.2.1 rfl, h.2.2.2⟩

/-- C9 witness: the amended statement evaluated at an empty prior list
and the claim's example content. -/
theorem mock_reply_enumeration_witness :
    MockLLM.generate_response [] contentC9 =
      String.intercalate " "
        ("我按指定顺序分析了您的内容：" :: mockFragsFrom 0 contentC9.blocks
          ++ (if 0 < (userMessages []).length then [counterLine []] else []))
    ∧ (mockFragsFrom 0 contentC9.blocks).length = contentC9.blocks.length
    ∧ strContains (MockLLM.generate_response [] contentC9) "a" = true
    ∧ strContains (MockLLM.generate_response [] contentC9) "包含 1 个字段的JSON数据" = true :=
  mock_reply_enumeration [] contentC9 (by decide)

/-! ### C1 — failed Generate stage and the stored history -/

/-- C1, counterexample: on a first turn with a system prompt, the
Prepare stage saves the system message before Generate runs
(graph.py:53-58 precede graph.py:69), so a failed Generate leaves that
system message in the store — the map is not exactly what it was. -/
theorem generate_failure_counterexample : ¬ specGenerateFailureKeepsHistory := by
  intro hcl
  have h2 := (hcl llmFail sysId mgrN w0 (some "c") (some "S")
      (Content.ofItems resolveId [Item.mk (RawItem.text "hi") []])
      (fun _ _ => ⟨"generate failed", rfl⟩)).2
  have hL : ((chat llmFail sysId mgrN w0 (some "c") (some "S")
      (some (Content.ofItems resolveId [Item.mk (RawItem.text "hi") []]))).2.1)._map.length
      = 1 := rfl
  rw [h2] at hL
  simp [mgrN, HistoryManager.init] at hL

/-- C1 (amended): a failed Generate stage yields no reply (`chat`
re-raises) and persists no user or assistant message: the stored
history of every conversation is exactly what it was before the call,
except that on a first turn with a truthy system prompt the single
system message appended by the Prepare stage remains. -/
theorem generate_failure_no_user_or_assistant (llm : LLMFun) (sys : Sys)
    (hm : HistoryManager) (w : World) (cid0 sp : Option String) (c : Content)
    (hfail : ∀ ms cc, ∃ e, llm ms cc = Except.error e) :
    (∀ res, (chat llm sys hm w cid0 sp (some c)).1 ≠ Except.ok res)
    ∧ ∃ (tid : String) (added : List Message),
        (∀ msg ∈ added, msg.role = "system") ∧ added.length ≤ 1
        ∧ ∀ id, ((chat llm sys hm w cid0 sp (some c)).2.1).get_msgs id
            = hm.get_msgs id ++ (if id = tid then added else []) := by
  have hres : resolveConvId sys w cid0
      = ((resolveConvId sys w cid0).1, (resolveConvId sys w cid0).2) := rfl
  obtain ⟨e, he⟩ := hfail ((prepareMessages sys hm (resolveConvId sys w cid0).2
      (resolveConvId sys w cid0).1 sp).1.get_msgs (resolveConvId sys w cid0).1) c
  have hchat := chat_eq_of_resolve_error llm sys hm w cid0 sp c e _ _ hres he
  have hchat1 : (chat llm sys hm w cid0 sp (some c)).1 = Except.error e := by rw [hchat]
  have hchat2 : (chat llm sys hm w cid0 sp (some c)).2.1
      = (prepareMessages sys hm (resolveConvId sys w cid0).2
          (resolveConvId sys w cid0).1 sp).1 := by rw [hchat]
  constructor
  · intro res hok
    rw [hchat1] at hok
    exact absurd hok (by simp)
  · rw [hchat2]
    by_cases hcond :
        ((hm.get_msgs (resolveConvId sys w cid0).1).isEmpty && strTruthy sp) = true
    · have hprep := prepareMessages_pos sys hm (resolveConvId sys w cid0).2
        (resolveConvId sys w cid0).1 sp hcond
      refine ⟨(resolveConvId sys w cid0).1,
        [Message.mk (sys.uuid (resolveConvId sys w cid0).2.uuidCalls) "system"
          (MsgContent.text (sp.getD ""))
          (sys.clock (resolveConvId sys w cid0).2.nowCalls)], ?_, by simp, ?_⟩
      · intro msg hmem
        simp only [List.mem_singleton] at hmem
        rw [hmem]
      · intro id
        rw [hprep, get_msgs_save_msg]
        by_cases hid : id = (resolveConvId sys w cid0).1 <;> simp [hid]
    · have hprep := prepareMessages_neg sys hm (resolveConvId sys w cid0).2
        (resolveConvId sys w cid0).1 sp (by simpa using hcond)
      refine ⟨(resolveConvId sys w cid0).1, [], by simp, by simp, ?_⟩
      intro id
      rw [hprep]
      simp

/-- C1 witness: the amended statement evaluated at a concrete failing
provider, fresh store, system prompt and one-block content. -/
theorem generate_failure_no_user_or_assistant_witness :
    (∀ res, (chat llmFail sysId mgrN w0 (some "c") (some "S")
        (some (Content.ofItems resolveId [Item.mk (RawItem.text "hi") []]))).1
      ≠ Except.ok res)
    ∧ ∃ (tid : String) (added : List Message),
        (∀ msg ∈ added, msg.role = "system") ∧ added.length ≤ 1
        ∧ ∀ id, ((chat llmFail sysId mgrN w0 (some "c") (some "S")
            (some (Content.ofItems resolveId [Item.mk (RawItem.text "hi") []]))).2.1).get_msgs id
            = mgrN.get_msgs id ++ (if id = tid then added else []) :=
  generate_failure_no_user_or_assistant llmFail sysId mgrN w0 (some "c") (some "S")
    (Content.ofItems resolveId [Item.mk (RawItem.text "hi") []])
    (fun _ _ => ⟨"generate failed", rfl⟩)

/-! ### C3 — message counts across a first and second chat call -/

/-- C3: a first `chat` with no conversation id, a truthy system
prompt and a one-text-block Content on a fresh conversation persists
system, user and assistant messages and reports `message_count = 3`;
a second `chat` on the returned id with the system prompt omitted
does not insert another system message and reports
`message_count = 5`. -/
theorem chat_system_then_followup_counts (sys : Sys) (hm : HistoryManager) (w : World)
    (s t1 t2 : String) (hs : s ≠ "")
    (hfresh : hm.exists (sys.uuid w.uuidCalls) = false)
    (hne : sys.uuid w.uuidCalls ≠ "") :
    ∃ (res1 res2 : ChatResult) (hm1 hm2 : HistoryManager) (w1 w2 : World),
      chat mockLLM sys hm w none (some s)
          (some (Content.ofItems resolveId [Item.mk (RawItem.text t1) []]))
        = (Except.ok res1, hm1, w1)
      ∧ res1.conv_id = sys.uuid w.uuidCalls
      ∧ res1.message_count = 3
      ∧ chat mockLLM sys hm1 w1 (some res1.conv_id) none
          (some (Content.ofItems resolveId [Item.mk (RawItem.text t2) []]))
        = (Except.ok res2, hm2, w2)
      ∧ res2.message_count = 5 := by
  have hres1 : resolveConvId sys w none
      = (sys.uuid w.uuidCalls,
          { nowCalls := w.nowCalls, uuidCalls := w.uuidCalls + 1 }) := rfl
  -- Prepare of the first call: fresh conversation, truthy prompt.
  have hmsgs0 : hm.get_msgs (sys.uuid w.uuidCalls) = [] := by
    cases hpy : pyGet hm._map (sys.uuid w.uuidCalls) with
    | none => simp [HistoryManager.get_msgs, hpy]
    | some h => simp [HistoryManager.exists, hpy] at hfresh
  have hcond1 : ((hm.get_msgs (sys.uuid w.uuidCalls)).isEmpty && strTruthy (some s))
      = true := by
    simp [hmsgs0, strTruthy, hs]
  have hprep1 := prepareMessages_pos sys hm
      { nowCalls := w.nowCalls, uuidCalls := w.uuidCalls + 1 }
      (sys.uuid w.uuidCalls) (some s) hcond1
  have hlenP1 : (prepareMessages sys hm
      { nowCalls := w.nowCalls, uuidCalls := w.uuidCalls + 1 }
      (sys.uuid w.uuidCalls) (some s)).1.get_length (sys.uuid w.uuidCalls) = 1 := by
    rw [hprep1]
    exact get_length_save_msg_of_fresh sys hm _ _ _ hfresh
  have hexP1 : (prepareMessages sys hm
      { nowCalls := w.nowCalls, uuidCalls := w.uuidCalls + 1 }
      (sys.uuid w.uuidCalls) (some s)).1.exists (sys.uuid w.uuidCalls) = true := by
    rw [hprep1, exists_save_msg]
    simp
  -- Generate of the first call: the mock reply, never empty.
  have hchat1 := chat_eq_of_resolve_ok mockLLM sys hm w none (some s)
      (Content.ofItems resolveId [Item.mk (RawItem.text t1) []])
      (MockLLM.generate_response ((prepareMessages sys hm
        { nowCalls := w.nowCalls, uuidCalls := w.uuidCalls + 1 }
        (sys.uuid w.uuidCalls) (some s)).1.get_msgs (sys.uuid w.uuidCalls))
        (Content.ofItems resolveId [Item.mk (RawItem.text t1) []]))
      (sys.uuid w.uuidCalls)
      { nowCalls := w.nowCalls, uuidCalls := w.uuidCalls + 1 } hres1 rfl
  have hr1 : MockLLM.generate_response ((prepareMessages sys hm
      { nowCalls := w.nowCalls, uuidCalls := w.uuidCalls + 1 }
      (sys.uuid w.uuidCalls) (some s)).1.get_msgs (sys.uuid w.uuidCalls))
      (Content.ofItems resolveId [Item.mk (RawItem.text t1) []]) ≠ "" :=
    mock_response_ne_empty _ _
  -- Persisted length after the first call.
  have hcount1 : ((saveHistory sys (prepareMessages sys hm
      { nowCalls := w.nowCalls, uuidCalls := w.uuidCalls + 1 }
      (sys.uuid w.uuidCalls) (some s)).1
      (prepareMessages sys hm
        { nowCalls := w.nowCalls, uuidCalls := w.uuidCalls + 1 }
        (sys.uuid w.uuidCalls) (some s)).2
      (sys.uuid w.uuidCalls)
      (some (Content.ofItems resolveId [Item.mk (RawItem.text t1) []]))
      (some (MockLLM.generate_response ((prepareMessages sys hm
        { nowCalls := w.nowCalls, uuidCalls := w.uuidCalls + 1 }
        (sys.uuid w.uuidCalls) (some s)).1.get_msgs (sys.uuid w.uuidCalls))
        (Content.ofItems resolveId [Item.mk (RawItem.text t1) []])))).1).get_length
      (sys.uuid w.uuidCalls) = 3 := by
    rw [get_length_saveHistory_of_exists sys _ _ _ _ _ hr1 hexP1, hlenP1]
    norm_num
  have hexm1 : ((saveHistory sys (prepareMessages sys hm
      { nowCalls := w.nowCalls, uuidCalls := w.uuidCalls + 1 }
      (sys.uuid w.uuidCalls) (some s)).1
      (prepareMessages sys hm
        { nowCalls := w.nowCalls, uuidCalls := w.uuidCalls + 1 }
        (sys.uuid w.uuidCalls) (some s)).2
      (sys.uuid w.uuidCalls)
      (some (Content.ofItems resolveId [Item.mk (RawItem.text t1) []]))
      (some (MockLLM.generate_response ((prepareMessages sys hm
        { nowCalls := w.nowCalls, uuidCalls := w.uuidCalls + 1 }
        (sys.uuid w.uuidCalls) (some s)).1.get_msgs (sys.uuid w.uuidCalls))
        (Content.ofItems resolveId [Item.mk (RawItem.text t1) []])))).1).exists
      (sys.uuid w.uuidCalls) = true :=
    exists_saveHistory sys _ _ _ _ _ hr1
  obtain ⟨HM1, hHM1⟩ : ∃ x, (saveHistory sys (prepareMessages sys hm
      { nowCalls := w.nowCalls, uuidCalls := w.uuidCalls + 1 }
      (sys.uuid w.uuidCalls) (some s)).1
      (prepareMessages sys hm
        { nowCalls := w.nowCalls, uuidCalls := w.uuidCalls + 1 }
        (sys.uuid w.uuidCalls) (some s)).2
      (sys.uuid w.uuidCalls)
      (some (Content.ofItems resolveId [Item.mk (RawItem.text t1) []]))
      (some (MockLLM.generate_response ((prepareMessages sys hm
        { nowCalls := w.nowCalls, uuidCalls := w.uuidCalls + 1 }
        (sys.uuid w.uuidCalls) (some s)).1.get_msgs (sys.uuid w.uuidCalls))
        (Content.ofItems resolveId [Item.mk (RawItem.text t1) []])))).1 = x := ⟨_, rfl⟩
  obtain ⟨W1, hW1⟩ : ∃ x, (saveHistory sys (prepareMessages sys hm
      { nowCalls := w.nowCalls, uuidCalls := w.uuidCalls + 1 }
      (sys.uuid w.uuidCalls) (some s)).1
      (prepareMessages sys hm
        { nowCalls := w.nowCalls, uuidCalls := w.uuidCalls + 1 }
        (sys.uuid w.uuidCalls) (some s)).2
      (sys.uuid w.uuidCalls)
      (some (Content.ofItems resolveId [Item.mk (RawItem.text t1) []]))
      (some (MockLLM.generate_response ((prepareMessages sys hm
        { nowCalls := w.nowCalls, uuidCalls := w.uuidCalls + 1 }
        (sys.uuid w.uuidCalls) (some s)).1.get_msgs (sys.uuid w.uuidCalls))
        (Content.ofItems resolveId [Item.mk (RawItem.text t1) []])))).2 = x := ⟨_, rfl⟩
  rw [hHM1] at hchat1 hcount1 hexm1
  rw [hW1] at hchat1
  -- Second call on the returned id, system prompt omitted.
  have hres2 : resolveConvId sys W1 (some (sys.uuid w.uuidCalls))
      = (sys.uuid w.uuidCalls, W1) := by
    simp [resolveConvId, hne]
  have hcond2 : ((HM1.get_msgs (sys.uuid w.uuidCalls)).isEmpty && strTruthy none)
      = false := by
    simp [strTruthy]
  have hchat2 := chat_eq_of_resolve_ok mockLLM sys HM1 W1 (some (sys.uuid w.uuidCalls))
      none (Content.ofItems resolveId [Item.mk (RawItem.text t2) []])
      (MockLLM.generate_response ((prepareMessages sys HM1 W1
        (sys.uuid w.uuidCalls) none).1.get_msgs (sys.uuid w.uuidCalls))
        (Content.ofItems resolveId [Item.mk (RawItem.text t2) []]))
      (sys.uuid w.uuidCalls) W1 hres2 rfl
  have hcount2 : ((saveHistory sys (prepareMessages sys HM1 W1
      (sys.uuid w.uuidCalls) none).1
      (prepareMessages sys HM1 W1 (sys.uuid w.uuidCalls) none).2
      (sys.uuid w.uuidCalls)
      (some (Content.ofItems resolveId [Item.mk (RawItem.text t2) []]))
      (some (MockLLM.generate_response ((prepareMessages sys HM1 W1
        (sys.uuid w.uuidCalls) none).1.get_msgs (sys.uuid w.uuidCalls))
        (Content.ofItems resolveId [Item.mk (RawItem.text t2) []])))).1).get_length
      (sys.uuid w.uuidCalls) = 5 := by
    rw [prepareMessages_neg_fst sys HM1 W1 (sys.uuid w.uuidCalls) none hcond2,
      prepareMessages_neg_snd sys HM1 W1 (sys.uuid w.uuidCalls) none hcond2]
    rw [get_length_saveHistory_of_exists sys HM1 W1 (sys.uuid w.uuidCalls) _ _
      (mock_response_ne_empty _ _) hexm1, hcount1]
    norm_num
  exact ⟨_, _, _, _, _, _, hchat1, rfl, hcount1, hchat2, hcount2⟩

/-- C3 witness: the two-call statement evaluated on a fresh store with
concrete prompt and texts. -/
theorem chat_system_then_followup_counts_witness :
    ∃ (res1 res2 : ChatResult) (hm1 hm2 : HistoryManager) (w1 w2 : World),
      chat mockLLM sysId mgrN w0 none (some "S")
          (some (Content.ofItems resolveId [Item.mk (RawItem.text "hi") []]))
        = (Except.ok res1, hm1, w1)
      ∧ res1.conv_id = sysId.uuid w0.uuidCalls
      ∧ res1.message_count = 3
      ∧ chat mockLLM sysId hm1 w1 (some res1.conv_id) none
          (some (Content.ofItems resolveId [Item.mk (RawItem.text "again") []]))
        = (Except.ok res2, hm2, w2)
      ∧ res2.message_count = 5 :=
  chat_system_then_followup_counts sysId mgrN w0 "S" "hi" "again"
    (by decide) rfl (by decide)

end Conv

